import Mathlib

/-!
Shallow embedding of the MOQT session-negotiation and message-dispatch layer,
`src/message_handlers.hpp` (namespace `rvn`, class `MessageHandler<MOQTObject>`).

Modelling conventions:
* Protobuf message classes become Lean structures; repeated fields become lists;
  protobuf enums become inductives.
* `ConnectionState` is declared in `moqt.hpp`, which is not among the given sources;
  it is modelled from the spec (section 3): `path`, `peerRole`,
  `expectControlStreamShutdown`, `outboundControlQueue`, `inboundPayloadQueue`.
* Serialization (`serialization.hpp`) is an external collaborator; a serialized
  control buffer is represented symbolically by the messages it encodes.
* `utils::ASSERT_LOG_THROW` logs and throws a catchable exception; an assertion
  failure is embedded as an `Except.error` value paired with the connection state
  at the moment of the throw (the assertions precede every state write).
* The unchecked indexing `clientSetupMessage.parameters()[iterIdx]` of the source
  carries no bounds check (protobuf repeated-field `operator[]` is unchecked in
  release builds); an out-of-range index is undefined behavior, embedded as the
  result `none` of the client-setup handler.
* The external subscription registry (`moqt.try_register_subscription`) is an
  oracle parameter; the fact that the handler calls it is recorded in an explicit
  `registryCalls` effect trace.
-/

namespace MOQT

/-- Role enumeration (`protobuf_messages::Role`); the spec (section 3) allows
Publisher, Subscriber and an optional combined role. -/
inductive Role where
  | Publisher
  | Subscriber
  | PubSub
deriving DecidableEq, Repr

/-- Wire message kinds (`protobuf_messages::MoQtMessageType`) used by the handlers. -/
inductive MoQtMessageType where
  | CLIENT_SETUP
  | SERVER_SETUP
deriving DecidableEq, Repr

/-- Status codes returned by the handlers: the source returns only
`QUIC_STATUS_SUCCESS` and `QUIC_STATUS_INVALID_PARAMETER`. -/
inductive QUIC_STATUS where
  | SUCCESS
  | INVALID_PARAMETER
deriving DecidableEq, Repr

/-- Nested path parameter: `params.path()` with its inner `path()` string field. -/
structure PathParameter where
  path : String
deriving DecidableEq, Repr

/-- Nested role parameter: `params.role()` with its inner `role()` enum field. -/
structure RoleParameter where
  role : Role
deriving DecidableEq, Repr

/-- One per-version parameter bundle of a `ClientSetupMessage`: a connection path
and a declared role, positionally correlated with `supportedversions`. -/
structure SetupParameter where
  path : PathParameter
  role : RoleParameter
deriving DecidableEq, Repr

/-- A client setup message (`protobuf_messages::ClientSetupMessage`): an ordered
sequence of supported versions and a positionally correlated sequence of
parameter bundles. -/
structure ClientSetupMessage where
  supportedversions : List Nat
  parameters : List SetupParameter
deriving DecidableEq, Repr

/-- One parameter bundle of a `ServerSetupMessage` (role only, no path). -/
structure ServerSetupParameter where
  role : RoleParameter
deriving DecidableEq, Repr

/-- A server setup message (`protobuf_messages::ServerSetupMessage`). -/
structure ServerSetupMessage where
  parameters : List ServerSetupParameter
deriving DecidableEq, Repr

/-- A message header (`protobuf_messages::MessageHeader`) carrying the message type. -/
structure MessageHeader where
  messagetype : MoQtMessageType
deriving DecidableEq, Repr

/-- A subscription request (`protobuf_messages::SubscribeMessage`). Filter
parameters are owned by the external registry and opaque at this layer. -/
structure SubscribeMessage where
  subscribeid : Nat
deriving DecidableEq, Repr

/-- A data message (`protobuf_messages::ObjectStreamMessage`): a subscription
identifier and a raw payload blob (bytes, modelled as a list of naturals). -/
structure ObjectStreamMessage where
  subscribeid : Nat
  objectpayload : List Nat
deriving DecidableEq, Repr

/-- Modelled from the spec: `serialization::serialize` lives in the external
`serialization.hpp`; a serialized `QUIC_BUFFER` is represented symbolically by
the header and the server setup message it encodes. -/
inductive QUIC_BUFFER where
  | serialized (header : MessageHeader) (msg : ServerSetupMessage)
deriving DecidableEq, Repr

/-- Modelled from the spec: `ConnectionState` is declared in `moqt.hpp`, outside
the given sources. Section 3 of the spec lists its fields: the negotiated `path`,
the `peerRole`, the `expectControlStreamShutdown` flag, the outbound
control-buffer queue and the inbound payload queue. The inbound queue holds
exactly the values the payload router passes to `add_to_queue`, which at the
source call site is the raw object payload alone. -/
structure ConnectionState where
  path : String
  peerRole : Role
  expectControlStreamShutdown : Bool
  outboundControlQueue : List QUIC_BUFFER
  inboundPayloadQueue : List (List Nat)
deriving DecidableEq, Repr

/-- Modelled from the spec: `enqueue_control_buffer(bytes)` appends to
`outboundControlQueue` (section 6, transport queue sink). -/
def enqueue_control_buffer (connectionState : ConnectionState)
    (buffer : QUIC_BUFFER) : ConnectionState :=
  { connectionState with
      outboundControlQueue := connectionState.outboundControlQueue ++ [buffer] }

/-- Modelled from the spec: `add_to_queue` appends to `inboundPayloadQueue`
(section 6, transport queue sink). The source call site
`connectionState.add_to_queue(objectStreamMessage.objectpayload())` passes the
payload as the only argument, so the queued entry is the payload alone. -/
def add_to_queue (connectionState : ConnectionState)
    (payload : List Nat) : ConnectionState :=
  { connectionState with
      inboundPayloadQueue := connectionState.inboundPayloadQueue ++ [payload] }

/-- Embedding of `std::find(supportedversions.begin(), supportedversions.end(), moqt.version)`
followed by `std::distance`: the index of the first (lowest-index) element equal
to `version`, or `none` when no element matches. -/
def findMatchingVersionIdx (version : Nat) : List Nat → Option Nat
  | [] => none
  | v :: vs =>
    if v = version then some 0
    else (findMatchingVersionIdx version vs).map (· + 1)

/-- Spec error taxonomy of section 7 (the classes relevant to the setup handlers). -/
inductive ErrorClass where
  | VersionMismatch
  | MalformedSetup
deriving DecidableEq, Repr

/-- The two `utils::ASSERT_LOG_THROW` assertions of the server-setup handler,
identified by which condition failed: `serverPathNonEmpty` is the role-path
invariant ("Server must not use the path parameter"), `serverNoParameters` is
the non-empty-parameters requirement ("SERVER_SETUP sent no parameters"). -/
inductive AssertionFailure where
  | serverPathNonEmpty
  | serverNoParameters
deriving DecidableEq, Repr

/-- Modelled from the spec: section 7 classifies both server-setup assertion
failures ("parameter/version index out of bounds, or role-path invariant
violated") as `MalformedSetup`, reported not fatal. -/
def errorClass : AssertionFailure → ErrorClass
  | AssertionFailure.serverPathNonEmpty => ErrorClass.MalformedSetup
  | AssertionFailure.serverNoParameters => ErrorClass.MalformedSetup

/-- Modelled from the spec: section 7 taxonomy for the client-setup handler's
returned status codes — `QUIC_STATUS_INVALID_PARAMETER` is the `VersionMismatch`
report (the only failure status that handler returns); success is no error. -/
def clientStatusClass : QUIC_STATUS → Option ErrorClass
  | QUIC_STATUS.SUCCESS => none
  | QUIC_STATUS.INVALID_PARAMETER => some ErrorClass.VersionMismatch

/-- Embedding of `MessageHandler::handle_message(ConnectionState&, ClientSetupMessage&&)`
(src/message_handlers.hpp, lines 36-89). `version` is `moqt.version`. The source
scans `supportedversions` for the first match of `moqt.version`, returns
`QUIC_STATUS_INVALID_PARAMETER` (state untouched) when none is found, and
otherwise reads `clientSetupMessage.parameters()[iterIdx]` WITHOUT a bounds
check: an out-of-range index is an unchecked read — undefined behavior — embedded
as the result `none`. On success it commits `path` and `peerRole` from the
selected bundle, builds a server setup message with one parameter carrying role
Publisher under a SERVER_SETUP header, serializes it, resets
`expectControlStreamShutdown` to false and enqueues the buffer. -/
def handle_client_setup (version : Nat) (connectionState : ConnectionState)
    (clientSetupMessage : ClientSetupMessage) :
    Option (QUIC_STATUS × ConnectionState) :=
  match findMatchingVersionIdx version clientSetupMessage.supportedversions with
  | none => some (QUIC_STATUS.INVALID_PARAMETER, connectionState)
  | some iterIdx =>
    match clientSetupMessage.parameters[iterIdx]? with
    | none => none
    | some params =>
      let cs1 := { connectionState with
                     path := params.path.path
                     peerRole := params.role.role }
      let serverSetupHeader : MessageHeader := ⟨MoQtMessageType.SERVER_SETUP⟩
      let serverSetupMessage : ServerSetupMessage := ⟨[⟨⟨Role.Publisher⟩⟩]⟩
      let quicBuffer := QUIC_BUFFER.serialized serverSetupHeader serverSetupMessage
      let cs2 := { cs1 with expectControlStreamShutdown := false }
      some (QUIC_STATUS.SUCCESS, enqueue_control_buffer cs2 quicBuffer)

/-- The one buffer the client-setup handler enqueues on success: the serialized
server setup message declaring role Publisher under a SERVER_SETUP header. -/
def serverSetupResponseBuffer : QUIC_BUFFER :=
  QUIC_BUFFER.serialized ⟨MoQtMessageType.SERVER_SETUP⟩ ⟨[⟨⟨Role.Publisher⟩⟩]⟩

/-- Embedding of `MessageHandler::handle_message(ConnectionState&, ServerSetupMessage&&)`
(src/message_handlers.hpp, lines 103-124). The source first asserts
`connectionState.path.size() == 0`, then asserts
`serverSetupMessage.parameters().size() > 0`, and only then reads
`parameters()[0]`, commits `peerRole` and sets `expectControlStreamShutdown` to
true. The state is returned alongside the status so that the unchanged state at
an assertion throw is explicit. -/
def handle_server_setup (connectionState : ConnectionState)
    (serverSetupMessage : ServerSetupMessage) :
    Except AssertionFailure QUIC_STATUS × ConnectionState :=
  if connectionState.path.length ≠ 0 then
    (Except.error AssertionFailure.serverPathNonEmpty, connectionState)
  else if serverSetupMessage.parameters.length = 0 then
    (Except.error AssertionFailure.serverNoParameters, connectionState)
  else
    match serverSetupMessage.parameters with
    | [] => (Except.error AssertionFailure.serverNoParameters, connectionState)
    | p :: _ =>
      (Except.ok QUIC_STATUS.SUCCESS,
        { connectionState with
            peerRole := p.role.role
            expectControlStreamShutdown := true })

/-- Modelled from the spec: admission errors produced by the external
subscription registry (section 6, `Result<Handle, AdmissionError>`). -/
inductive AdmissionError where
  | rejected (code : Nat)
deriving DecidableEq, Repr

/-- Modelled from the spec: the subscription handle produced by the external
registry on admission (section 6). -/
inductive SubscriptionHandle where
  | handle (id : Nat)
deriving DecidableEq, Repr

/-- Outcome of the subscribe handler: the returned status together with an
explicit effect trace of the calls made to the external registry capability. -/
structure SubscribeOutcome where
  status : QUIC_STATUS
  registryCalls : List (ConnectionState × SubscribeMessage)
deriving DecidableEq, Repr

/-- Embedding of `MessageHandler::handle_message(ConnectionState&, SubscribeMessage&&)`
(src/message_handlers.hpp, lines 137-148). The handler logs, forwards the message
and the connection state to `moqt.try_register_subscription` — recorded in
`registryCalls` — binds the result to a local (`auto err = ...`) that is never
read, and returns `QUIC_STATUS_SUCCESS` unconditionally. The external registry's
result is the oracle parameter `registryResult`. No connection-phase or state
check of any kind appears in the source. -/
def handle_subscribe (registryResult : Except AdmissionError SubscriptionHandle)
    (connectionState : ConnectionState)
    (subscribeMessage : SubscribeMessage) : SubscribeOutcome :=
  let _err := registryResult
  { status := QUIC_STATUS.SUCCESS
    registryCalls := [(connectionState, subscribeMessage)] }

/-- Embedding of `MessageHandler::handle_message(ConnectionState&, ObjectStreamMessage&&)`
(src/message_handlers.hpp, lines 161-171). The source reads
`objectStreamMessage.subscribeid()` into a local variable that is never used
afterwards, then calls `connectionState.add_to_queue(objectStreamMessage.objectpayload())`
with the payload as the only argument, and returns `QUIC_STATUS_SUCCESS`. -/
def handle_object_stream (connectionState : ConnectionState)
    (objectStreamMessage : ObjectStreamMessage) : QUIC_STATUS × ConnectionState :=
  let _subscribeId := objectStreamMessage.subscribeid
  (QUIC_STATUS.SUCCESS, add_to_queue connectionState objectStreamMessage.objectpayload)

/-- Modelled from the spec: the per-connection control-stream phases of section
4.5 (`Uninitialized`, `NegotiatingSetup`, `Established`). The handlers in
`message_handlers.hpp` receive no phase information; the type exists so that
phase-dependence claims can be stated. -/
inductive ConnectionPhase where
  | Uninitialized
  | NegotiatingSetup
  | Established
deriving DecidableEq, Repr

/-- A freshly created connection state, on which no setup handler has yet run:
no negotiated path, no queued buffers or payloads. Per protobuf enum defaults
the role field starts at the first enum value. -/
def freshConnectionState : ConnectionState :=
  { path := ""
    peerRole := Role.Publisher
    expectControlStreamShutdown := false
    outboundControlQueue := []
    inboundPayloadQueue := [] }

/-- Concrete scenario 1 of the spec (section 8): versions [1,2,3], parameter
bundles for paths "/a", "/b", "/c" with roles Subscriber, Publisher, Subscriber. -/
def scenario1Msg : ClientSetupMessage :=
  { supportedversions := [1, 2, 3]
    parameters := [⟨⟨"/a"⟩, ⟨Role.Subscriber⟩⟩,
                   ⟨⟨"/b"⟩, ⟨Role.Publisher⟩⟩,
                   ⟨⟨"/c"⟩, ⟨Role.Subscriber⟩⟩] }

/-- The connection state produced by the client-setup handler on scenario 1
starting from the fresh state, spelled out. -/
def scenario1Result : ConnectionState :=
  { path := "/b"
    peerRole := Role.Publisher
    expectControlStreamShutdown := false
    outboundControlQueue := [serverSetupResponseBuffer]
    inboundPayloadQueue := [] }

/-! Helper lemmas about the version scan. -/

/-- When the responder's version does not occur in the list, the scan finds nothing. -/
theorem findMatchingVersionIdx_eq_none (version : Nat) (vs : List Nat)
    (h : version ∉ vs) : findMatchingVersionIdx version vs = none := by
  induction vs with
  | nil => rfl
  | cons v tl ih =>
    have hv : v ≠ version := fun hv => h (hv ▸ List.mem_cons_self v tl)
    have htl : version ∉ tl := fun hm => h (List.mem_cons_of_mem v hm)
    simp [findMatchingVersionIdx, hv, ih htl]

/-- The scan returns exactly the first (lowest) index holding the version. -/
theorem findMatchingVersionIdx_first (version : Nat) :
    ∀ (vs : List Nat) (k : Nat), vs[k]? = some version →
      (∀ j, j < k → vs[j]? ≠ some version) →
      findMatchingVersionIdx version vs = some k := by
  intro vs
  induction vs with
  | nil => intro k h _; simp at h
  | cons v tl ih =>
    intro k h hfirst
    cases k with
    | zero =>
      simp at h
      simp [findMatchingVersionIdx, h]
    | succ k =>
      have hv : v ≠ version := by
        intro hv
        exact hfirst 0 (Nat.succ_pos k) (by simp [hv])
      have h' : tl[k]? = some version := by simpa using h
      have hfirst' : ∀ j, j < k → tl[j]? ≠ some version := by
        intro j hj hget
        exact hfirst (j + 1) (Nat.succ_lt_succ hj) (by simpa using hget)
      simp [findMatchingVersionIdx, hv, ih k h' hfirst']

/-- Shape of every successful client-setup run: a first-matching index k exists,
the parameter list has a bundle p at k, and the final state is the input state
with path/peerRole from p, the shutdown flag false and the response appended. -/
theorem handle_client_setup_success_shape
    (version : Nat) (cs cs' : ConnectionState) (m : ClientSetupMessage)
    (h : handle_client_setup version cs m = some (QUIC_STATUS.SUCCESS, cs')) :
    ∃ k p, findMatchingVersionIdx version m.supportedversions = some k ∧
      m.parameters[k]? = some p ∧
      cs' = { cs with
                path := p.path.path
                peerRole := p.role.role
                expectControlStreamShutdown := false
                outboundControlQueue :=
                  cs.outboundControlQueue ++ [serverSetupResponseBuffer] } := by
  cases hf : findMatchingVersionIdx version m.supportedversions with
  | none => simp [handle_client_setup, hf] at h
  | some k =>
    cases hp : m.parameters[k]? with
    | none => simp [handle_client_setup, hf, hp] at h
    | some p =>
      simp [handle_client_setup, hf, hp, enqueue_control_buffer,
        serverSetupResponseBuffer] at h
      exact ⟨k, p, rfl, hp, h.symm⟩

/-! Claim theorems. -/

/-- C1: for every client setup whose supported-version list contains the
responder's version with first (lowest-index) match at index k and whose
parameter list carries a bundle p at index k, the handler succeeds and commits
`path` and `peerRole` into the connection state exactly from p, the bundle at
index k, never from any other index. -/
theorem client_setup_commits_bundle_at_first_match
    (version : Nat) (cs : ConnectionState) (m : ClientSetupMessage)
    (k : Nat) (p : SetupParameter)
    (hk : m.supportedversions[k]? = some version)
    (hfirst : ∀ j, j < k → m.supportedversions[j]? ≠ some version)
    (hp : m.parameters[k]? = some p) :
    ∃ cs', handle_client_setup version cs m = some (QUIC_STATUS.SUCCESS, cs') ∧
      cs'.path = p.path.path ∧ cs'.peerRole = p.role.role := by
  have hfind := findMatchingVersionIdx_first version m.supportedversions k hk hfirst
  refine ⟨{ cs with
              path := p.path.path
              peerRole := p.role.role
              expectControlStreamShutdown := false
              outboundControlQueue :=
                cs.outboundControlQueue ++ [serverSetupResponseBuffer] }, ?_, rfl, rfl⟩
  simp [handle_client_setup, hfind, hp, enqueue_control_buffer, serverSetupResponseBuffer]

/-- Witness for C1: concrete scenario 1 of the spec — versions [1,2,3],
responder version 2, first match at index 1, committed bundle path "/b",
role Publisher. -/
theorem client_setup_commits_bundle_at_first_match_witness :
    ∃ cs', handle_client_setup 2 freshConnectionState scenario1Msg =
        some (QUIC_STATUS.SUCCESS, cs') ∧
      cs'.path = "/b" ∧ cs'.peerRole = Role.Publisher :=
  client_setup_commits_bundle_at_first_match 2 freshConnectionState scenario1Msg 1
    ⟨⟨"/b"⟩, ⟨Role.Publisher⟩⟩ (by rfl)
    (by intro j hj hget
        have hj0 : j = 0 := Nat.lt_one_iff.mp hj
        subst hj0
        exact absurd hget (by decide))
    (by rfl)

/-- C2: evaluation of the code at the failing input — versions [1,2], responder
version 2 (first match at index 1), a single-element parameter list. The source
reads `parameters()[1]` with no bounds check, an out-of-range access (undefined
behavior), embedded as the result `none`; no MalformedSetup failure path exists
in the handler. -/
theorem client_setup_oob_read_unchecked :
    handle_client_setup 2 freshConnectionState
      { supportedversions := [1, 2]
        parameters := [⟨⟨"/a"⟩, ⟨Role.Subscriber⟩⟩] } = none := by rfl

/-- C3: for every client setup whose supported-version list does not contain the
responder's version, the handler returns `QUIC_STATUS_INVALID_PARAMETER` — the
VersionMismatch report — with the connection state returned exactly as it came
in: no write to path, peerRole or expectControlStreamShutdown, and no buffer
enqueued on the outbound control queue. -/
theorem client_setup_version_mismatch_state_unchanged
    (version : Nat) (cs : ConnectionState) (m : ClientSetupMessage)
    (h : version ∉ m.supportedversions) :
    handle_client_setup version cs m = some (QUIC_STATUS.INVALID_PARAMETER, cs) ∧
    clientStatusClass QUIC_STATUS.INVALID_PARAMETER = some ErrorClass.VersionMismatch := by
  refine ⟨?_, rfl⟩
  simp [handle_client_setup, findMatchingVersionIdx_eq_none version _ h]

/-- Witness for C3: concrete scenario 2 of the spec — versions [1,3], responder
version 2, state untouched. -/
theorem client_setup_version_mismatch_state_unchanged_witness :
    handle_client_setup 2 freshConnectionState ⟨[1, 3], []⟩ =
      some (QUIC_STATUS.INVALID_PARAMETER, freshConnectionState) ∧
    clientStatusClass QUIC_STATUS.INVALID_PARAMETER = some ErrorClass.VersionMismatch :=
  client_setup_version_mismatch_state_unchanged 2 freshConnectionState ⟨[1, 3], []⟩
    (by decide)

/-- C6: after every successful client-setup call, exactly one buffer has been
appended to the outbound control queue — the serialized server setup message
declaring role Publisher — and expectControlStreamShutdown equals false. -/
theorem client_setup_success_enqueues_one_response
    (version : Nat) (cs cs' : ConnectionState) (m : ClientSetupMessage)
    (h : handle_client_setup version cs m = some (QUIC_STATUS.SUCCESS, cs')) :
    cs'.outboundControlQueue = cs.outboundControlQueue ++ [serverSetupResponseBuffer] ∧
    cs'.expectControlStreamShutdown = false := by
  obtain ⟨k, p, -, -, hcs⟩ := handle_client_setup_success_shape version cs cs' m h
  subst hcs
  exact ⟨rfl, rfl⟩

/-- Witness for C6 at the concrete scenario 1 inputs. -/
theorem client_setup_success_enqueues_one_response_witness :
    scenario1Result.outboundControlQueue =
      freshConnectionState.outboundControlQueue ++ [serverSetupResponseBuffer] ∧
    scenario1Result.expectControlStreamShutdown = false :=
  client_setup_success_enqueues_one_response 2 freshConnectionState scenario1Result
    scenario1Msg (by rfl)

/-- C7: for every server setup handled while the local path is non-empty, the
handler fails on the path-invariant assertion, with the state unchanged,
regardless of the message — in particular also when the parameter list is empty,
so the failure precedes any read of the parameters. -/
theorem server_setup_nonempty_path_fails_first
    (cs : ConnectionState) (m : ServerSetupMessage) (h : cs.path.length ≠ 0) :
    handle_server_setup cs m = (Except.error AssertionFailure.serverPathNonEmpty, cs) := by
  simp [handle_server_setup, h]

/-- Witness for C7: non-empty path "/p" and an empty parameter list; the
path-invariant violation is the reported failure. -/
theorem server_setup_nonempty_path_fails_first_witness :
    handle_server_setup { freshConnectionState with path := "/p" } ⟨[]⟩ =
      (Except.error AssertionFailure.serverPathNonEmpty,
        { freshConnectionState with path := "/p" }) :=
  server_setup_nonempty_path_fails_first
    { freshConnectionState with path := "/p" } ⟨[]⟩ (by decide)

/-- C8: for every server setup with an empty parameter list arriving at an empty
local path, the handler fails on the no-parameters assertion — classified
MalformedSetup by the spec taxonomy, reported as a thrown, catchable error value
rather than a process abort — and the connection state is returned unchanged:
peerRole not written, expectControlStreamShutdown not set. -/
theorem server_setup_empty_params_malformed
    (cs : ConnectionState) (m : ServerSetupMessage)
    (hpath : cs.path.length = 0) (hparams : m.parameters = []) :
    handle_server_setup cs m = (Except.error AssertionFailure.serverNoParameters, cs) ∧
    errorClass AssertionFailure.serverNoParameters = ErrorClass.MalformedSetup := by
  refine ⟨?_, rfl⟩
  simp [handle_server_setup, hpath, hparams]

/-- Witness for C8: fresh state (empty path), no parameters. -/
theorem server_setup_empty_params_malformed_witness :
    handle_server_setup freshConnectionState ⟨[]⟩ =
      (Except.error AssertionFailure.serverNoParameters, freshConnectionState) ∧
    errorClass AssertionFailure.serverNoParameters = ErrorClass.MalformedSetup :=
  server_setup_empty_params_malformed freshConnectionState ⟨[]⟩ rfl rfl

/-- C9: for every subscription request the handler forwards the request (with
the connection state) to the registry capability and returns the non-fatal
`QUIC_STATUS_SUCCESS`, whether the registry rejects (any admission error) or
accepts (any handle): an admission failure never produces a connection-fatal
result from the handler. -/
theorem subscribe_forwards_and_never_fatal
    (e : AdmissionError) (hdl : SubscriptionHandle)
    (cs : ConnectionState) (m : SubscribeMessage) :
    (handle_subscribe (Except.error e) cs m).status = QUIC_STATUS.SUCCESS ∧
    (handle_subscribe (Except.error e) cs m).registryCalls = [(cs, m)] ∧
    (handle_subscribe (Except.ok hdl) cs m).status = QUIC_STATUS.SUCCESS ∧
    (handle_subscribe (Except.ok hdl) cs m).registryCalls = [(cs, m)] :=
  ⟨rfl, rfl, rfl, rfl⟩

/-- C5, counterexample to the claim as stated: on the fresh connection state —
one on which no setup handler has run, i.e. a connection still in the
NegotiatingSetup phase of the spec's state machine — the subscribe handler still
invokes try_register_subscription (the registry-call trace is non-empty) and
returns success, not a ProtocolOrderingError; no phase check exists in the
source handlers. -/
theorem subscribe_in_negotiating_phase_still_forwards :
    (handle_subscribe (Except.error (AdmissionError.rejected 0))
        freshConnectionState ⟨7⟩).status = QUIC_STATUS.SUCCESS ∧
    (handle_subscribe (Except.error (AdmissionError.rejected 0))
        freshConnectionState ⟨7⟩).registryCalls = [(freshConnectionState, ⟨7⟩)] :=
  ⟨rfl, rfl⟩

/-- C5, amended: the subscribe handler performs no connection-phase check — for
every connection state, every message and every registry result it invokes the
registry capability exactly once and returns success; the handlers never produce
an ordering error (any gating belongs to the transport layer outside this code). -/
theorem subscribe_handler_phase_independent
    (registryResult : Except AdmissionError SubscriptionHandle)
    (cs : ConnectionState) (m : SubscribeMessage) :
    handle_subscribe registryResult cs m =
      { status := QUIC_STATUS.SUCCESS, registryCalls := [(cs, m)] } :=
  rfl

/-- C4: evaluation of the code at the failing input — a data message with
subscribeid 7 and payload bytes [1, 2]. The handler's result is identical to the
one for subscribeid 8 with the same payload, and the queued entry is the bare
payload: the subscription identifier is read into an unused local and never
attached to the queue entry, so the entry is not tagged as the claim requires. -/
theorem object_stream_drops_subscribe_id :
    handle_object_stream freshConnectionState ⟨7, [1, 2]⟩ =
      handle_object_stream freshConnectionState ⟨8, [1, 2]⟩ ∧
    (handle_object_stream freshConnectionState ⟨7, [1, 2]⟩).2.inboundPayloadQueue =
      [[1, 2]] :=
  ⟨rfl, rfl⟩

/-- C10: for every data message the handler returns success and its only effect
is appending the payload as one element to the inbound payload queue: path,
peerRole, expectControlStreamShutdown, the outbound control queue and all
existing elements of both queues are unchanged. -/
theorem object_stream_frame_conditions
    (cs : ConnectionState) (m : ObjectStreamMessage) :
    (handle_object_stream cs m).1 = QUIC_STATUS.SUCCESS ∧
    (handle_object_stream cs m).2.path = cs.path ∧
    (handle_object_stream cs m).2.peerRole = cs.peerRole ∧
    (handle_object_stream cs m).2.expectControlStreamShutdown =
      cs.expectControlStreamShutdown ∧
    (handle_object_stream cs m).2.outboundControlQueue = cs.outboundControlQueue ∧
    (handle_object_stream cs m).2.inboundPayloadQueue =
      cs.inboundPayloadQueue ++ [m.objectpayload] :=
  ⟨rfl, rfl, rfl, rfl, rfl, rfl⟩

end MOQT
